import Mathlib

/-!
Verification of the core of the `tsv2resume` pipeline
(`src/tsv2resume/old/tsv2resume_fold.py`, with the fold-free variant
`src/tsv2resume/old/tsv2resume_nofold.py`).

Text is modelled as `List Char` (Python `str`); each Python function of the
core is translated into a computable Lean function of the same name where
Lean allows it.  Python's whitespace test `str.isspace` and the case
conversions are modelled over the ASCII/Latin-1 range that the program's
sentinels and markup use.
-/

namespace Tsv2Resume

/-- Text, modelled as the list of its characters. -/
abbrev Str := List Char

/-- Shorthand to write `Str` literals. -/
def str (s : String) : Str := s.data

/-- Python `str.isspace` on a single character (ASCII/Latin-1 fragment:
space, `\t`, `\n`, `\r`, vertical tab, form feed, the file/group/record/unit
separators, next-line and no-break space). -/
def pyIsSpace (c : Char) : Bool :=
  c = ' ' || c = '\t' || c = '\n' || c = '\r' || c = '\x0b' || c = '\x0c' ||
  c = '\x1c' || c = '\x1d' || c = '\x1e' || c = '\x1f' || c = '\x85' || c = '\xa0'

/-- The first non-whitespace character of a character list, if any.
Used for both `prev_nonspace` (on the reversed prefix of the input) and
`next_nonspace` (on the unread suffix) of `nl_to_br_outside_tags`:
Python's `prev_nonspace(i)`/`next_nonspace(i)` scan away from position `i`
skipping whitespace and return `""` when they run off the string, which is
modelled by `none`. -/
def firstNonSpace : Str → Option Char
  | [] => none
  | c :: cs => if pyIsSpace c then firstNonSpace cs else some c

/-- The scanning loop of `nl_to_br_outside_tags` (lines 41-84 of the source).
State: `inTag` (Python `in_tag`), `q` (Python `quote`), the characters of
the ORIGINAL input already consumed in reverse order (`prev`, giving Python's
`prev_nonspace` look-back over `t[0:i]`), and the unread suffix `rest`
(`t[i:]`; `next_nonspace` looks into it).  Python's `while i < n` loop with
`out.append` becomes recursion producing the output list. -/
def nlScan : Bool → Option Char → Str → Str → Str
  | true, some q, prev, c :: rest =>
      -- inside a quoted attribute value: everything is copied; the matching
      -- quote character exits back to unquoted-in-tag state
      c :: nlScan true (if c = q then none else some q) (c :: prev) rest
  | true, none, prev, c :: rest =>
      -- inside a tag, unquoted
      if c = '\'' ∨ c = '"' then c :: nlScan true (some c) (c :: prev) rest
      else if c = '>' then c :: nlScan false none (c :: prev) rest
      else if c = '\n' then ' ' :: nlScan true none (c :: prev) rest
      else c :: nlScan true none (c :: prev) rest
  | false, q, prev, c :: rest =>
      -- outside tags
      if c = '<' then c :: nlScan true q (c :: prev) rest
      else if c = '\n' then
        if firstNonSpace prev = some '>' ∧ firstNonSpace rest = some '<' then
          -- formatting-only break: consume it and all following whitespace,
          -- emit nothing (`i += 1; while t[i].isspace(): i += 1`)
          nlScan false q ((rest.takeWhile pyIsSpace).reverse ++ '\n' :: prev)
            (rest.dropWhile pyIsSpace)
        else
          -- real break in text: emit the marker, consume just the newline
          '<' :: 'b' :: 'r' :: '>' :: nlScan false q ('\n' :: prev) rest
      else c :: nlScan false q (c :: prev) rest
  | _, _, _, [] => []
termination_by _ _ _ rest => rest.length
decreasing_by
  all_goals simp_wf
  all_goals first
    | omega
    | (have hh : ∀ l : Str, (List.dropWhile pyIsSpace l).length ≤ l.length := by
         intro l
         induction l with
         | nil => simp [List.dropWhile]
         | cons c cs ih =>
             by_cases h : pyIsSpace c
             · simp only [List.dropWhile, h]
               exact Nat.le_succ_of_le ih
             · simp [List.dropWhile, h]
       exact Nat.lt_succ_of_le (hh _))

/-- `nl_to_br_outside_tags` (source lines 16-86): replace raw newlines by
`<br>` outside tags, drop pure inter-tag formatting breaks, turn in-tag
newlines into spaces, leave quoted attribute values untouched. -/
def nl_to_br_outside_tags (t : Str) : Str := nlScan false none [] t

/-! ## Row Classifier / Section Builder -/

/-- A leaf line inside a fold block (`{"html": …, "meta": …}`). -/
structure FoldItem where
  html : Str
  meta : Str
deriving DecidableEq

/-- The three row shapes appended to a section's `rows` list by
`build_sections`: `{"type": "pair"}`, `{"type": "desc"}` and
`{"type": "hidden"}` dictionaries in the source. -/
inductive Row where
  | pair (main meta : Str)
  | desc (html : Str)
  | hidden (summary : Str) (isOpen : Bool) (items : List FoldItem)
deriving DecidableEq

/-- A section record `{"label": …, "id": slugify(label), "rows": […]}`. -/
structure Section where
  label : Str
  id : Str
  rows : List Row
deriving DecidableEq

/-- Python `str.strip()` with no argument: whitespace off both ends. -/
def pyStrip (s : Str) : Str :=
  ((s.dropWhile pyIsSpace).reverse.dropWhile pyIsSpace).reverse

/-- `[a-z0-9]`, the characters `slugify` keeps. -/
def isSlugChar (c : Char) : Bool :=
  ('a' ≤ c && c ≤ 'z') || ('0' ≤ c && c ≤ '9')

/-- `re.sub(r"<[^>]+>", "", text)` of `slugify`, source line 245: delete every
leftmost non-overlapping occurrence of `<`, one or more non-`>` characters,
`>`.  Written as a one-buffer scan so that it is structurally recursive: the
first argument holds, reversed, a pending `<` plus the non-`>` run read since
it; on a `>` the buffer of length ≥ 2 is a match and is dropped, a buffer
holding only `<` (the text `<>`) is no match and is kept; a buffer left over
at the end of input is no match and is kept (no later match can start inside
it, as the input holds no further `>`). -/
def stripTagsAux : Str → Str → Str
  | buf, [] => buf.reverse
  | [], '<' :: rest => stripTagsAux ['<'] rest
  | [], c :: rest => c :: stripTagsAux [] rest
  | buf, '>' :: rest =>
      if 2 ≤ buf.length then stripTagsAux [] rest
      else '<' :: '>' :: stripTagsAux [] rest
  | buf, c :: rest => stripTagsAux (c :: buf) rest

/-- Strip `<…>` tag spans from a heading. -/
def stripTags (s : Str) : Str := stripTagsAux [] s

/-- `re.sub(r"[^a-z0-9]+", "-", text)`: replace every maximal run of
non-`[a-z0-9]` characters by a single `-`.  The Boolean records whether the
scan is currently inside a run already replaced. -/
def collapseAux : Bool → Str → Str
  | _, [] => []
  | inRun, c :: rest =>
      if isSlugChar c then c :: collapseAux false rest
      else if inRun then collapseAux true rest
      else '-' :: collapseAux true rest

/-- Python `str.strip("-")`. -/
def stripDashes (s : Str) : Str :=
  ((s.dropWhile (· = '-')).reverse.dropWhile (· = '-')).reverse

/-- `slugify` (source lines 244-248): strip tags, trim and lower-case,
collapse non-alphanumeric runs to `-`, trim `-`, default `"section"`. -/
def slugify (text : Str) : Str :=
  let t1 := stripTags text
  let t2 := (pyStrip t1).map Char.toLower
  let t3 := stripDashes (collapseAux false t2)
  if t3 = [] then str "section" else t3

/-- `p` is a prefix of the second list (Python slice comparison). -/
def isPrefixStr : Str → Str → Bool
  | [], _ => true
  | _ :: _, [] => false
  | p :: ps, c :: cs => (p = c) && isPrefixStr ps cs

/-- Python `pat in s`: `pat` occurs as a contiguous substring of `s`. -/
def isSubstrStr (pat : Str) : Str → Bool
  | [] => isPrefixStr pat []
  | c :: rest => isPrefixStr pat (c :: rest) || isSubstrStr pat rest

/-- `re.match(r"^\s*SECTION\s*:\s*(.+)$", heading, re.IGNORECASE)` (source
line 278), returning group 1.  `.` does not match a newline and `$` only
accepts the end of the (already stripped) heading, so the name part must be
non-empty and newline-free; the leading `\s*` runs may span newlines.
The builder calls this on `pyStrip`-trimmed headings only; on those a
non-empty remainder after the colon never consists of whitespace alone and
never ends in a newline, so the regex's backtracking corner cases (`\s*`
giving a whitespace character back to `(.+)`, `$` before a trailing
newline) cannot arise and the maximal-munch reading below is exact. -/
def matchSection (h : Str) : Option Str :=
  let h1 := h.dropWhile pyIsSpace
  if (h1.take 7).map Char.toLower = str "section" then
    match (h1.drop 7).dropWhile pyIsSpace with
    | ':' :: rest =>
        let name := rest.dropWhile pyIsSpace
        if name ≠ [] ∧ '\n' ∉ name then some name else none
    | _ => none
  else none

/-- A word character for the `\b` boundary (ASCII fragment of Python `\w`). -/
def isWordChar (c : Char) : Bool := c.isAlpha || c.isDigit || c = '_'

/-- `re.match(r"^\s*HIDDEN\b(.*)$", heading, re.IGNORECASE)` (source line
285), returning group 1 (the flags after `HIDDEN`).  `\b` requires the
character after `HIDDEN`, if any, to be a non-word character; `(.*)$` keeps
the remainder, which must be newline-free for the anchored match to
succeed.  As with the section sentinel, the builder passes trimmed headings
only, where the remainder never ends in a newline and `$` is exactly
end-of-input. -/
def matchHidden (h : Str) : Option Str :=
  let h1 := h.dropWhile pyIsSpace
  if (h1.take 6).map Char.toLower = str "hidden" then
    let rest := h1.drop 6
    let boundaryOk := match rest with
      | [] => true
      | c :: _ => ! isWordChar c
    if boundaryOk = true ∧ '\n' ∉ rest then some rest else none
  else none

/-- The trimmed field `i` of a raw row after the normalisation
`row = (raw + ["","",""])[:3]` and `(row[i] or "").strip()`. -/
def rowField (raw : List Str) (i : Nat) : Str :=
  pyStrip ((raw ++ [[], [], []]).getD i [])

/-- Trimmed `heading` of a raw row. -/
def rowHeading (raw : List Str) : Str := rowField raw 0

/-- Trimmed `content` of a raw row. -/
def rowContent (raw : List Str) : Str := rowField raw 1

/-- Trimmed `meta` of a raw row. -/
def rowMeta (raw : List Str) : Str := rowField raw 2

/-- `start_section`'s fresh section record. -/
def mkSection (label : Str) : Section :=
  { label := label, id := slugify label, rows := [] }

/-- Append a row to the current (most recently started) section.  The
builder state keeps the section list reversed, current section first; the
Python code appends to `current["rows"]`, and `current` is aliased as the
last element of `sections`. -/
def appendRowToHead (secs : List Section) (r : Row) : List Section :=
  match secs with
  | [] => []
  | sec :: rest => { sec with rows := sec.rows ++ [r] } :: rest

/-- Apply `f` to the last element of a list (the row `pending_hidden`
aliases). -/
def modifyLast (f : Row → Row) : List Row → List Row
  | [] => []
  | [r] => [f r]
  | r :: rs => r :: modifyLast f rs

/-- `pending_hidden["items"].append(it)`: add a fold item to a hidden row. -/
def appendItem (it : FoldItem) : Row → Row
  | .hidden s o items => .hidden s o (items ++ [it])
  | r => r

/-- Append a fold item to the block `pending_hidden` aliases: whenever the
pending flag is set, that block is the last row of the current section (the
flag is cleared before any later row or section is started). -/
def appendItemToHead (secs : List Section) (it : FoldItem) : List Section :=
  match secs with
  | [] => []
  | sec :: rest => { sec with rows := modifyLast (appendItem it) sec.rows } :: rest

/-- One iteration of the `for raw in rows` loop of the fold-capable
`build_sections` (source lines 267-321).  State: the sections started so
far, reversed so that `current` is the head (Python's `current` is `None`
exactly when no section exists yet), and the Boolean `pending_hidden`
aliasing flag. -/
def stepFold (st : List Section × Bool) (raw : List Str) : List Section × Bool :=
  let secs := st.1
  let pending := st.2
  let heading := rowHeading raw
  let content := rowContent raw
  let meta := rowMeta raw
  -- skip completely empty lines
  if heading = [] ∧ content = [] ∧ meta = [] then st
  else
    match matchSection heading with
    | some name =>
        -- new section sentinel; no auto-row
        (mkSection (pyStrip name) :: secs, false)
    | none =>
      match matchHidden heading with
      | some flags =>
          -- collapsible start
          let secs1 := if secs = [] then [mkSection (str "Section")] else secs
          let isOpen := isSubstrStr (str "OPEN") (flags.map Char.toUpper)
          let summary := if content = [] then str "More details" else content
          (appendRowToHead secs1 (.hidden summary isOpen []), true)
      | none =>
        if heading ≠ [] then
          -- non-empty heading: close any pending block, maybe start section
          let secs1 := match secs with
            | [] => [mkSection heading]
            | cur :: _ => if heading = cur.label then secs else mkSection heading :: secs
          (if content ≠ [] ∨ meta ≠ [] then appendRowToHead secs1 (.pair content meta)
           else secs1, false)
        else
          if pending then
            -- collect into the hidden body
            (if content ≠ [] ∨ meta ≠ [] then appendItemToHead secs ⟨content, meta⟩
             else secs, true)
          else
            let secs1 := if secs = [] then [mkSection (str "Section")] else secs
            (if meta ≠ [] then appendRowToHead secs1 (.pair content meta)
             else appendRowToHead secs1 (.desc content), false)

/-- `build_sections` of `tsv2resume_fold.py` (lines 256-323). -/
def build_sections (rows : List (List Str)) : List Section :=
  (rows.foldl stepFold ([], false)).1.reverse

/-- One iteration of the `for raw in rows` loop of the fold-free
`build_sections` of `tsv2resume_nofold.py` (lines 211-243).  Unlike the
fold-capable variant, a `SECTION:` sentinel row with non-empty content or
meta also appends a pair row to the section it starts. -/
def stepNofold (secs : List Section) (raw : List Str) : List Section :=
  let heading := rowHeading raw
  let content := rowContent raw
  let meta := rowMeta raw
  if heading = [] ∧ content = [] ∧ meta = [] then secs
  else
    match matchSection heading with
    | some name =>
        let secs1 := mkSection (pyStrip name) :: secs
        if content ≠ [] ∨ meta ≠ [] then appendRowToHead secs1 (.pair content meta)
        else secs1
    | none =>
      if heading ≠ [] then
        let secs1 := match secs with
          | [] => [mkSection heading]
          | cur :: _ => if heading = cur.label then secs else mkSection heading :: secs
        if content ≠ [] ∨ meta ≠ [] then appendRowToHead secs1 (.pair content meta)
        else secs1
      else
        let secs1 := if secs = [] then [mkSection (str "Section")] else secs
        if meta ≠ [] then appendRowToHead secs1 (.pair content meta)
        else appendRowToHead secs1 (.desc content)

/-- `build_sections` of `tsv2resume_nofold.py` (lines 202-245). -/
def build_sections_nofold (rows : List (List Str)) : List Section :=
  (rows.foldl stepNofold []).reverse

/-- A raw row on which the two builder variants cannot diverge: its heading
does not start a fold block, and if it is a `SECTION:` sentinel its content
and meta are empty (the fold-free builder appends a pair row for those,
the fold-capable one does not). -/
def agreeableRow (raw : List Str) : Prop :=
  matchHidden (rowHeading raw) = none ∧
    (matchSection (rowHeading raw) ≠ none → rowContent raw = [] ∧ rowMeta raw = [])

instance (raw : List Str) : Decidable (agreeableRow raw) := by
  unfold agreeableRow; infer_instance

/-! ## Paragraph Formatter -/

/-- One attempted match of `TAG_RE = re.compile(r"</?[a-zA-Z][^>]*>")` at a
position just after a `<`: an optional `/`, an ASCII letter, then a `>`
somewhere later (the `[^>]*` soaks up everything before the first `>`). -/
def tagAt : Str → Bool
  | '/' :: c :: rest => c.isAlpha && rest.contains '>'
  | c :: rest => c.isAlpha && rest.contains '>'
  | [] => false

/-- `TAG_RE.search(t) is not None`: some position of `t` starts a tag. -/
def hasTag : Str → Bool
  | [] => false
  | '<' :: rest => tagAt rest || hasTag rest
  | _ :: rest => hasTag rest

/-- `t.replace("\r\n", "\n").replace("\r", "\n")` (source line 96). -/
def normalizeNewlines : Str → Str
  | [] => []
  | '\r' :: '\n' :: rest => '\n' :: normalizeNewlines rest
  | '\r' :: rest => '\n' :: normalizeNewlines rest
  | c :: rest => c :: normalizeNewlines rest

/-- `re.split(r"\n\s*\n", t)` (source line 99).  A separator starts at a
newline whose following maximal whitespace run contains another newline; the
greedy `\s*` then ends the separator at the last newline of that run, and
scanning resumes right after it (`acc` holds the current block reversed). -/
def splitBlank (acc : Str) : Str → List Str
  | [] => [acc.reverse]
  | c :: rest =>
      if c = '\n' then
        let run := rest.takeWhile pyIsSpace
        match run.reverse.findIdx? (fun x => x = '\n') with
        | some j => acc.reverse :: splitBlank [] (rest.drop (run.length - j))
        | none => splitBlank ('\n' :: acc) rest
      else splitBlank (c :: acc) rest
termination_by rest => rest.length
decreasing_by
  all_goals simp_wf
  all_goals omega

/-- A blank-line boundary in the sense of `re.split(r"\n\s*\n", ·)`: some
newline whose following maximal whitespace run contains another newline. -/
def hasBlankBoundary : Str → Bool
  | [] => false
  | c :: rest =>
      (c = '\n' && decide ('\n' ∈ rest.takeWhile pyIsSpace)) || hasBlankBoundary rest

/-- `b.replace("\n", "<br>")` (source line 100). -/
def nlToBrAll (s : Str) : Str :=
  (s.map (fun c => if c = '\n' then str "<br>" else [c])).flatten

/-- `AUTO_PARA = True` (source line 13). -/
def AUTO_PARA : Bool := true

/-- `auto_html` (source lines 88-102): empty on all-whitespace input;
otherwise normalise line endings, and either wrap blank-line-separated
blocks in `<p>…</p>` (no markup present) or run the tag-aware converter
(markup present). -/
def auto_html (text : Str) : Str :=
  if pyStrip text = [] then []
  else
    let t := normalizeNewlines text
    if hasTag t = false then
      List.intercalate (str "\n")
        ((splitBlank [] (pyStrip t)).map
          (fun b => str "<p>" ++ nlToBrAll (pyStrip b) ++ str "</p>"))
    else nl_to_br_outside_tags t

/-- `maybe_html` (source line 104). -/
def maybe_html (text : Str) : Str :=
  if AUTO_PARA then auto_html text else text

/-! ## Renderer -/

/-- The text of the `HTML_HEAD` template before the `$title` placeholder
(source lines 108-236); `Template.substitute` splices the document title
between the two halves, the only placeholder. -/
def HTML_HEAD_PRE : Str :=
  str "<!DOCTYPE html>\n" ++
  str "<html lang=\"en\">\n" ++
  str "<head>\n" ++
  str "<meta charset=\"utf-8\" />\n" ++
  str "<base target=\"_blank\">\n" ++
  str "<meta name=\"viewport\" content=\"width=device-width, initial-scale=1\" />\n" ++
  str "<title>"

/-- The text of the `HTML_HEAD` template after the `$title` placeholder. -/
def HTML_HEAD_POST : Str :=
  str "</title>\n" ++
  str "<style>\n" ++
  str "  :root \x7b\n" ++
  str "    /* Column widths */\n" ++
  str "    --three-left: 110px; /* label */\n" ++
  str "    --three-mid: 575px;  /* main */\n" ++
  str "    /* controls space under the name (title) */\n" ++
  str "    --space-before-title: 35px;            \n" ++
  str "    --space-after-title: 50px;\n" ++
  str "\n" ++
  str "    /* tweak this up/down until it\x27s perfect in your browser(s) */\n" ++
  str "    --fold-chev-nudge: -5px; /* try 0.5px-2px */\n" ++
  str "    /* Optional: section separator border; set to e.g., 1px solid #ddd */\n" ++
  str "    --row-sep: 0;\n" ++
  str "    /*--row-sep: 1px solid #ddd;*/\n" ++
  str "\n" ++
  str "    /* Optional: quick debug outline for grid cells */\n" ++
  str "    --debug-outline: none; /* e.g., 1px dashed #ccc */\n" ++
  str "    /* --debug-outline: 1px solid #ccc; */\n" ++
  str "  \x7d\n" ++
  str "\n" ++
  str "  body \x7b\n" ++
  str "    font-family: arial, verdana, sans-serif;\n" ++
  str "    font-size: 10pt;\n" ++
  str "    margin: 0;\n" ++
  str "    padding: 0;\n" ++
  str "  \x7d\n" ++
  str "\n" ++
  str "  #container \x7b width: 800px; margin: 0 auto; \x7d\n" ++
  str "  /* Allow horizontal scroll on narrow screens so grid never stacks */\n" ++
  str "  #content \x7b padding-bottom: 50px; overflow-x: visible; \x7d\n" ++
  str "  .title \x7b font-size: xx-large; font-weight: bold; margin: var(--space-before-title) 0 var(--space-after-title); \x7d\n" ++
  str "  .subtitle \x7b font-size: large; font-weight: bold; margin: 4px 0 16px; \x7d\n" ++
  str "                     \n" ++
  str "  /* === Grid Entry with Row-Pair Pattern === */\n" ++
  str "  .entry \x7b\n" ++
  str "    display: grid;\n" ++
  str "    grid-template-columns: var(--three-left) var(--three-mid) minmax(0, 1fr);\n" ++
  str "    column-gap: 12px;\n" ++
  str "    row-gap: 15px;         /* space between the pair and its desc */\n" ++
  str "    align-items: start;   /* like valign=\"top\" */\n" ++
  str "    margin: 0 0 14px 0;   /* space between entries */\n" ++
  str "    border-bottom: var(--row-sep);\n" ++
  str "    padding-bottom: 8px;\n" ++
  str "    /* Optional hard minimum width to discourage squeezing columns */\n" ++
  str "    min-width: 0;\n" ++
  str "  \x7d\n" ++
  str "\n" ++
  str "  /* Basics */\n" ++
  str "  .entry > * \x7b min-width: 0; outline: var(--debug-outline); \x7d\n" ++
  str "  .label     \x7b grid-column: 1; font-weight: bold; \x7d\n" ++
  str "  .line-main \x7b grid-column: 2; \x7d\n" ++
  str "  .line-meta \x7b grid-column: 3; text-align: right; justify-self: end; font-style: italic; \x7d\n" ++
  str "  .desc      \x7b grid-column: 2 / -1; \x7d\n" ++
  str "\n" ++
  str "  /* Two-column variant (entire section has no meta) */\n" ++
  str "  .entry.entry--two \x7b grid-template-columns: var(--three-left) minmax(0,1fr); \x7d\n" ++
  str "  .entry.entry--two .line-main \x7b grid-column: 2; \x7d\n" ++
  str "  .entry.entry--two .desc \x7b grid-column: 2; \x7d\n" ++
  str "  .entry.entry--two .line-meta \x7b display: none; \x7d\n" ++
  str "\n" ++
  str "  /* Paragraph tidy */\n" ++
  str "  .entry p \x7b margin: 0 0 8px; \x7d\n" ++
  str "  /* Avoid extra spacing in the right/meta column when auto-paragraphing */\n" ++
  str "  .line-meta p \x7b margin: 0; \x7d\n" ++
  str "                     \n" ++
  str "    /* Collapsible blocks (no JS) */\n" ++
  str "    details.fold \x7b grid-column: 2 / -1; margin-top: 6px; border-left: 2px solid #eee; padding-left: 10px; \x7d\n" ++
  str "    details.fold > summary \x7b\n" ++
  str "    cursor: pointer;\n" ++
  str "    font-weight: 600;\n" ++
  str "    display: flex;\n" ++
  str "    align-items: center;\n" ++
  str "    gap: 6px;\n" ++
  str "    list-style: none; /* hide default marker in Firefox */\n" ++
  str "    \x7d\n" ++
  str "    details.fold > summary::-webkit-details-marker \x7b display: none; \x7d /* hide WebKit marker */\n" ++
  str "    details.fold > summary .chev::before \x7b\n" ++
  str "    content: \"\u25b8\";\n" ++
  str "    display: inline-block;\n" ++
  str "    line-height: 1;\n" ++
  str "    transform: translateY(var(--fold-chev-nudge));\n" ++
  str "    transition: transform .2s;\n" ++
  str "    \x7d\n" ++
  str "    details.fold[open] > summary .chev::before \x7b transform: translateY(var(--fold-chev-nudge)) rotate(90deg); \x7d\n" ++
  str "    details.fold > .fold-body \x7b margin-top: 6px; \x7d\n" ++
  str "\n" ++
  str "    /* Optional: print all content, remove toggles */\n" ++
  str "    @media print \x7b\n" ++
  str "    details.fold \x7b border-left: 0; padding-left: 0; \x7d\n" ++
  str "    details.fold > summary \x7b display: none; \x7d\n" ++
  str "    details.fold > .fold-body \x7b display: block !important; \x7d   \n" ++
  str "    \x7d\n" ++
  str "    /* Rows inside the collapsible body */\n" ++
  str "    details.fold > .fold-body \x7b margin-top: 6px; \x7d\n" ++
  str "\n" ++
  str "    /* Each item becomes a 2-col mini-grid: main | meta */\n" ++
  str "    .fold-item \x7b\n" ++
  str "    display: grid;\n" ++
  str "    grid-template-columns: minmax(0, 1fr) auto; /* auto-hides meta col if absent */\n" ++
  str "    column-gap: 8px;\n" ++
  str "    align-items: start;\n" ++
  str "    margin-top: 6px;             /* visual separation between rows */\n" ++
  str "    \x7d\n" ++
  str "    .fold-item:first-child \x7b margin-top: 0; \x7d\n" ++
  str "\n" ++
  str "    .fold-item .fold-main \x7b min-width: 0; \x7d\n" ++
  str "    .fold-item .fold-meta \x7b\n" ++
  str "    text-align: right;\n" ++
  str "    white-space: nowrap;         /* keep dates on one line */\n" ++
  str "    margin-left: 8px;\n" ++
  str "    \x7d\n" ++
  str "\n" ++
  str "    /* Optional: lists look nice inside hidden rows too */\n" ++
  str "    .fold-item ul, .fold-item ol \x7b margin: 0 0 6px; padding-left: 1.2em; \x7d\n" ++
  str "    .fold-item li \x7b margin: 0 0 4px; \x7d\n" ++
  str "\n" ++
  str "</style>\n" ++
  str "</head>\n" ++
  str "<body>\n" ++
  str "  <div id=\"container\">\n" ++
  str "    <main id=\"content\">\n"

/-- The `HTML_TAIL` closing markup (source lines 238-242). -/
def HTML_TAIL : Str :=
  str "    </main>\n" ++
  str "  </div>\n" ++
  str "</body>\n" ++
  str "</html>\n"

/-- `HTML_HEAD.substitute(title=title)`. -/
def htmlHead (title : Str) : Str := HTML_HEAD_PRE ++ title ++ HTML_HEAD_POST

/-- Truthiness of a pair row's `meta` (`r.get("meta")` for
`r["type"] == "pair"`): the `any(...)` generator of `render_html` (source
line 332) only inspects pair rows. -/
def pairHasMeta : Row → Bool
  | .pair _ meta => ! meta.isEmpty
  | _ => false

/-- `entry_classes` of `render_html` (source lines 330-333): the base class
plus the two-column variant marker when no pair row of the section carries a
non-empty meta. -/
def sectionEntryClasses (sec : Section) : Str :=
  str "entry" ++
    (if (sec.rows.any pairHasMeta) = false then str " entry--two" else [])

/-- The markup of one fold item (source lines 353-358). -/
def renderItem (it : FoldItem) : Str :=
  str "              <div class=\"fold-item\">\n" ++
  str "                <div class=\"fold-main\">" ++ maybe_html it.html ++ str "</div>\n" ++
  (if ! it.meta.isEmpty then
    str "                <div class=\"fold-meta\">" ++ maybe_html it.meta ++ str "</div>\n"
   else []) ++
  str "              </div>\n"

/-- The markup of one row (source lines 339-360). -/
def renderRow : Row → Str
  | .pair main meta =>
      str "          <div class=\"line-main\">" ++ maybe_html main ++ str "</div>\n" ++
      (if ! meta.isEmpty then
        str "          <div class=\"line-meta\">" ++ maybe_html meta ++ str "</div>\n"
       else [])
  | .desc html =>
      str "          <div class=\"desc\">" ++ maybe_html html ++ str "</div>\n"
  | .hidden summary isOpen items =>
      str "          <details class=\"fold desc\"" ++
      (if isOpen then str " open" else []) ++ str ">\n" ++
      str "            <summary><span class=\"chev\"></span> " ++
      maybe_html summary ++ str "</summary>\n" ++
      str "            <div class=\"fold-body\">\n" ++
      (items.map renderItem).flatten ++
      str "            </div>\n" ++
      str "          </details>\n"

/-- The markup of one section (the body of the `for sec in sections` loop,
source lines 329-363). -/
def renderSection (sec : Section) : Str :=
  str "      <section aria-labelledby=\"" ++ sec.id ++ str "\">\n" ++
  str "        <div class=\"" ++ sectionEntryClasses sec ++ str "\" id=\"" ++
  sec.id ++ str "\">\n" ++
  str "          <div class=\"label\">" ++ sec.label ++ str "</div>\n" ++
  (sec.rows.map renderRow).flatten ++
  str "        </div>\n" ++
  str "      </section>\n\n"

/-- `render_html` (source lines 325-366). -/
def render_html (title : Str) (sections : List Section) : Str :=
  htmlHead title ++
  (str "      <h1 class=\"title\">" ++ title ++ str "</h1>\n") ++
  (sections.map renderSection).flatten ++
  HTML_TAIL


/-- A small fact about `dropWhile` used for termination of the scanner. -/
theorem dropWhile_length_le (p : Char → Bool) (l : Str) :
    (l.dropWhile p).length ≤ l.length := by
  induction l with
  | nil => simp [List.dropWhile]
  | cons c cs ih =>
    by_cases h : p c
    · simp only [List.dropWhile, h]
      exact Nat.le_succ_of_le ih
    · simp [List.dropWhile, h]

/-! Single-step unfolding lemmas for the scanner, one per branch of the
Python loop body. -/

theorem nlScan_nil (b : Bool) (q : Option Char) (pv : Str) :
    nlScan b q pv [] = [] := by
  cases b <;> cases q <;> simp [nlScan]

theorem nlScan_inQuote (q : Char) (pv : Str) (c : Char) (rest : Str) :
    nlScan true (some q) pv (c :: rest) =
      c :: nlScan true (if c = q then none else some q) (c :: pv) rest := by
  rw [nlScan]

theorem nlScan_inTag_quoteOpen (pv : Str) (c : Char) (rest : Str)
    (h : c = '\'' ∨ c = '"') :
    nlScan true none pv (c :: rest) = c :: nlScan true (some c) (c :: pv) rest := by
  rw [nlScan, if_pos h]

theorem nlScan_inTag_close (pv rest : Str) :
    nlScan true none pv ('>' :: rest) = '>' :: nlScan false none ('>' :: pv) rest := by
  rw [nlScan]; simp

theorem nlScan_inTag_nl (pv rest : Str) :
    nlScan true none pv ('\n' :: rest) = ' ' :: nlScan true none ('\n' :: pv) rest := by
  rw [nlScan]; simp

theorem nlScan_inTag_other (pv : Str) (c : Char) (rest : Str)
    (h1 : ¬(c = '\'' ∨ c = '"')) (h2 : c ≠ '>') (h3 : c ≠ '\n') :
    nlScan true none pv (c :: rest) = c :: nlScan true none (c :: pv) rest := by
  rw [nlScan, if_neg h1, if_neg h2, if_neg h3]

theorem nlScan_tagOpen (q : Option Char) (pv rest : Str) :
    nlScan false q pv ('<' :: rest) = '<' :: nlScan true q ('<' :: pv) rest := by
  rw [nlScan]; simp

theorem nlScan_nl_discard (q : Option Char) (pv rest : Str)
    (h : firstNonSpace pv = some '>' ∧ firstNonSpace rest = some '<') :
    nlScan false q pv ('\n' :: rest) =
      nlScan false q ((rest.takeWhile pyIsSpace).reverse ++ '\n' :: pv)
        (rest.dropWhile pyIsSpace) := by
  rw [nlScan]; simp [if_pos h]

theorem nlScan_nl_br (q : Option Char) (pv rest : Str)
    (h : ¬(firstNonSpace pv = some '>' ∧ firstNonSpace rest = some '<')) :
    nlScan false q pv ('\n' :: rest) =
      '<' :: 'b' :: 'r' :: '>' :: nlScan false q ('\n' :: pv) rest := by
  rw [nlScan]; simp [if_neg h]

theorem nlScan_copy (q : Option Char) (pv : Str) (c : Char) (rest : Str)
    (h1 : c ≠ '<') (h2 : c ≠ '\n') :
    nlScan false q pv (c :: rest) = c :: nlScan false q (c :: pv) rest := by
  rw [nlScan, if_neg h1, if_neg h2]

/-- **C1.** A raw line break met outside a tag is discarded — together with
all contiguous whitespace immediately following it, emitting nothing — if
and only if the nearest non-whitespace character before it (in the original
input, i.e. in the consumed prefix `prev`) is `>` and the nearest
non-whitespace character after it is `<`; in every other case exactly one
visible-break marker `<br>` is emitted and only the one line-break
character is consumed. -/
theorem c1_linebreak_outside_tags (q : Option Char) (prev rest : Str) :
    nlScan false q prev ('\n' :: rest) =
      if firstNonSpace prev = some '>' ∧ firstNonSpace rest = some '<' then
        nlScan false q ((rest.takeWhile pyIsSpace).reverse ++ '\n' :: prev)
          (rest.dropWhile pyIsSpace)
      else str "<br>" ++ nlScan false q ('\n' :: prev) rest := by
  by_cases h : firstNonSpace prev = some '>' ∧ firstNonSpace rest = some '<'
  · rw [if_pos h, nlScan_nl_discard q prev rest h]
  · rw [if_neg h, nlScan_nl_br q prev rest h]
    rfl

/-- Inside a tag with no quote open, if the remaining input contains no
tag-close and no quote character, the scanner stays in tag mode for good:
newlines become single spaces and everything else is copied. -/
theorem nlScan_inTag_forever (pv v : Str)
    (h : ∀ c ∈ v, c ≠ '>' ∧ c ≠ '\'' ∧ c ≠ '"') :
    nlScan true none pv v = v.map (fun c => if c = '\n' then ' ' else c) := by
  induction v generalizing pv with
  | nil => simp [nlScan_nil]
  | cons c cs ih =>
    obtain ⟨hgt, hq1, hq2⟩ := h c (by simp)
    have hrest : ∀ c ∈ cs, c ≠ '>' ∧ c ≠ '\'' ∧ c ≠ '"' := fun c hc => h c (by simp [hc])
    by_cases hnl : c = '\n'
    · subst hnl
      rw [nlScan_inTag_nl, ih _ hrest]
      simp
    · rw [nlScan_inTag_other pv c cs (by tauto) hgt hnl, ih _ hrest]
      simp [hnl]

/-- **C10.** If the scanner meets a `<` outside any tag and the rest of the
input contains no `>` and no quote character, it remains in tag mode to the
end of input: every later raw line break is emitted as a single space, no
`<br>` marker is emitted after that point, and every other character is
copied through unchanged. -/
theorem c10_unclosed_tag (prev v : Str)
    (h : ∀ c ∈ v, c ≠ '>' ∧ c ≠ '\'' ∧ c ≠ '"') :
    nlScan false none prev ('<' :: v) =
      '<' :: v.map (fun c => if c = '\n' then ' ' else c) := by
  rw [nlScan_tagOpen, nlScan_inTag_forever _ v h]

/-- Witness for C10 at a concrete input: `<a(newline)b` with the tag never
closed. -/
theorem c10_unclosed_tag_witness :
    (∀ c ∈ str "a\nb", c ≠ '>' ∧ c ≠ '\'' ∧ c ≠ '"') ∧
      nlScan false none [] ('<' :: str "a\nb") = str "<a b" := by
  refine ⟨by decide, ?_⟩
  rw [c10_unclosed_tag [] (str "a\nb") (by decide)]
  decide

/-- Rescanning the scanner's output from a matching state reproduces it.
The state invariant `inTag = false → q = none` holds throughout the real
scanner (a quote can only be open inside a tag).  The consumed-prefix
arguments may differ between the two passes because the output contains no
newline outside a tag, so the look-back never matters on the second pass. -/
theorem nlScan_fixpoint (k : Nat) (inTag : Bool) (q : Option Char)
    (pv1 pv2 rest : Str) (hlen : rest.length ≤ k)
    (hwf : inTag = false → q = none) :
    nlScan inTag q pv2 (nlScan inTag q pv1 rest) = nlScan inTag q pv1 rest := by
  induction k generalizing inTag q pv1 pv2 rest with
  | zero =>
    have : rest = [] := List.eq_nil_of_length_eq_zero (Nat.le_zero.mp hlen)
    subst this
    rw [nlScan_nil, nlScan_nil]
  | succ k ih =>
    match rest with
    | [] => rw [nlScan_nil, nlScan_nil]
    | c :: rs =>
      have hrs : rs.length ≤ k := by simp at hlen; omega
      cases inTag with
      | true =>
        cases q with
        | some qc =>
          rw [nlScan_inQuote, nlScan_inQuote]
          exact congrArg _ (ih _ _ _ _ _ hrs (by simp))
        | none =>
          by_cases h1 : c = '\'' ∨ c = '"'
          · rw [nlScan_inTag_quoteOpen _ _ _ h1, nlScan_inTag_quoteOpen _ _ _ h1]
            exact congrArg _ (ih _ _ _ _ _ hrs (by simp))
          · by_cases h2 : c = '>'
            · subst h2
              rw [nlScan_inTag_close, nlScan_inTag_close]
              exact congrArg _ (ih _ _ _ _ _ hrs (by simp))
            · by_cases h3 : c = '\n'
              · subst h3
                rw [nlScan_inTag_nl,
                  nlScan_inTag_other _ ' ' _ (by decide) (by decide) (by decide)]
                exact congrArg _ (ih _ _ _ _ _ hrs (by simp))
              · rw [nlScan_inTag_other _ _ _ h1 h2 h3,
                  nlScan_inTag_other _ _ _ (by simpa using h1) h2 h3]
                exact congrArg _ (ih _ _ _ _ _ hrs (by simp))
      | false =>
        have hq : q = none := hwf rfl
        subst hq
        by_cases h1 : c = '<'
        · subst h1
          rw [nlScan_tagOpen, nlScan_tagOpen]
          exact congrArg _ (ih _ _ _ _ _ hrs (by simp))
        · by_cases h2 : c = '\n'
          · subst h2
            by_cases h3 : firstNonSpace pv1 = some '>' ∧ firstNonSpace rs = some '<'
            · rw [nlScan_nl_discard _ _ _ h3]
              exact ih _ _ _ _ _ (le_trans (dropWhile_length_le _ _) hrs) (by simp)
            · rw [nlScan_nl_br _ _ _ h3, nlScan_tagOpen,
                nlScan_inTag_other _ 'b' _ (by decide) (by decide) (by decide),
                nlScan_inTag_other _ 'r' _ (by decide) (by decide) (by decide),
                nlScan_inTag_close]
              exact congrArg _ (congrArg _ (congrArg _ (congrArg _
                (ih _ _ _ _ _ hrs (by simp)))))
          · rw [nlScan_copy _ _ _ _ h1 h2, nlScan_copy _ _ _ _ h1 h2]
            exact congrArg _ (ih _ _ _ _ _ hrs (by simp))

/-- **C8.** The Tag-Aware Linebreak Converter is idempotent: applying it to
its own output yields that output unchanged. -/
theorem c8_converter_idempotent (t : Str) :
    nl_to_br_outside_tags (nl_to_br_outside_tags t) = nl_to_br_outside_tags t :=
  nlScan_fixpoint t.length false none [] [] t le_rfl (fun _ => rfl)

/-- **C2.** On a row whose trimmed heading is non-empty and matches neither
sentinel, the builder clears the pending fold flag; it starts a new section
labelled with the heading iff there is no current section or the heading
differs (literal post-trim equality) from the current section's label; and
it appends a `Pair{main: content, meta: meta}` row iff content or meta is
non-empty. -/
theorem c2_plain_heading_row (secs : List Section) (pending : Bool)
    (raw : List Str) (hne : rowHeading raw ≠ [])
    (hsec : matchSection (rowHeading raw) = none)
    (hhid : matchHidden (rowHeading raw) = none) :
    stepFold (secs, pending) raw =
      (let secs1 := match secs with
        | [] => [mkSection (rowHeading raw)]
        | cur :: _ => if rowHeading raw = cur.label then secs
                      else mkSection (rowHeading raw) :: secs
       if rowContent raw ≠ [] ∨ rowMeta raw ≠ [] then
         appendRowToHead secs1 (.pair (rowContent raw) (rowMeta raw))
       else secs1,
       false) := by
  have hskip : ¬(rowHeading raw = [] ∧ rowContent raw = [] ∧ rowMeta raw = []) :=
    fun h => hne h.1
  simp only [stepFold, if_neg hskip, hsec, hhid, if_pos hne]

/-- Witness for C2: a non-sentinel heading with no current section and the
pending flag previously set. -/
theorem c2_plain_heading_row_witness :
    (rowHeading [str "Acme Inc", str "Engineer", str "2020-2022"] ≠ [] ∧
     matchSection (rowHeading [str "Acme Inc", str "Engineer", str "2020-2022"]) = none ∧
     matchHidden (rowHeading [str "Acme Inc", str "Engineer", str "2020-2022"]) = none) ∧
    stepFold ([], true) [str "Acme Inc", str "Engineer", str "2020-2022"] =
      ([{ label := str "Acme Inc", id := str "acme-inc",
          rows := [.pair (str "Engineer") (str "2020-2022")] }], false) := by
  refine ⟨⟨by decide, by decide, by decide⟩, ?_⟩
  rw [c2_plain_heading_row [] true [str "Acme Inc", str "Engineer", str "2020-2022"]
    (by decide) (by decide) (by decide)]
  decide

/-- **C3.** On a row whose trimmed heading matches the fold-start sentinel,
the builder lazily creates a section if none exists, appends a new fold
block whose summary is the content (default `"More details"` when content is
empty), marks it open iff the heading's remainder contains the token `OPEN`
case-insensitively, and sets it pending; in particular the spec's example
input yields one default-labelled section holding
`FoldBlock{summary:"Show more", open:true}` with the two detail items. -/
theorem c3_hidden_sentinel :
    (∀ (secs : List Section) (pending : Bool) (raw : List Str) (flags : Str),
      matchSection (rowHeading raw) = none →
      matchHidden (rowHeading raw) = some flags →
      stepFold (secs, pending) raw =
        (appendRowToHead (if secs = [] then [mkSection (str "Section")] else secs)
          (.hidden (if rowContent raw = [] then str "More details" else rowContent raw)
            (isSubstrStr (str "OPEN") (flags.map Char.toUpper)) []),
         true)) ∧
    build_sections [[str "HIDDEN OPEN", str "Show more", str ""],
        [str "", str "Detail one", str "2021"],
        [str "", str "Detail two", str ""]] =
      [{ label := str "Section", id := str "section",
         rows := [.hidden (str "Show more") true
           [⟨str "Detail one", str "2021"⟩, ⟨str "Detail two", str ""⟩]] }] := by
  constructor
  · intro secs pending raw flags hsec hhid
    have hne : rowHeading raw ≠ [] := by
      intro h
      rw [h] at hhid
      simp [matchHidden, str] at hhid
    have hskip : ¬(rowHeading raw = [] ∧ rowContent raw = [] ∧ rowMeta raw = []) :=
      fun h => hne h.1
    simp only [stepFold, if_neg hskip, hsec, hhid]
  · decide

/-- Witness for C3's general part: its instance at the example's first row
and an empty state. -/
theorem c3_hidden_sentinel_witness :
    (matchSection (rowHeading [str "HIDDEN OPEN", str "Show more", str ""]) = none ∧
     matchHidden (rowHeading [str "HIDDEN OPEN", str "Show more", str ""]) = some (str " OPEN")) ∧
    stepFold ([], false) [str "HIDDEN OPEN", str "Show more", str ""] =
      ([{ label := str "Section", id := str "section",
          rows := [.hidden (str "Show more") true []] }], true) := by
  refine ⟨⟨by decide, by decide⟩, ?_⟩
  rw [c3_hidden_sentinel.1 [] false [str "HIDDEN OPEN", str "Show more", str ""]
    (str " OPEN") (by decide) (by decide)]
  decide

/-- **C4.** On the rows `SECTION: Work` / `Acme Inc, Engineer, 2020-2022` /
`(empty), Built X, (empty)` the builder produces a section labelled `Work`
followed by a new section labelled `Acme Inc` holding the pair row
`Engineer / 2020-2022` and the description row `Built X`; neither row lands
in the `Work` section. -/
theorem c4_sentinel_then_heading :
    build_sections [[str "SECTION: Work", str "", str ""],
        [str "Acme Inc", str "Engineer", str "2020-2022"],
        [str "", str "Built X", str ""]] =
      [{ label := str "Work", id := str "work", rows := [] },
       { label := str "Acme Inc", id := str "acme-inc",
         rows := [.pair (str "Engineer") (str "2020-2022"),
                  .desc (str "Built X")] }] := by
  decide

/-- On an agreeable row, one step of the fold-capable builder with no
pending block does exactly what one step of the fold-free builder does. -/
theorem stepFold_eq_stepNofold (secs : List Section) (raw : List Str)
    (h : agreeableRow raw) :
    stepFold (secs, false) raw = (stepNofold secs raw, false) := by
  obtain ⟨hhid, hsec⟩ := h
  by_cases hskip : rowHeading raw = [] ∧ rowContent raw = [] ∧ rowMeta raw = []
  · simp only [stepFold, stepNofold, if_pos hskip]
  · simp only [stepFold, stepNofold, if_neg hskip]
    cases hmsec : matchSection (rowHeading raw) with
    | some name =>
        have hcm := hsec (by rw [hmsec]; simp)
        simp [hhid, hcm.1, hcm.2]
    | none =>
        simp only [hhid]
        by_cases hne : rowHeading raw ≠ []
        · simp [if_pos hne]
        · simp [if_neg hne]

/-- Folding agreeable rows keeps the two builders' states identical. -/
theorem foldl_stepFold_eq (rows : List (List Str))
    (h : ∀ raw ∈ rows, agreeableRow raw) :
    ∀ secs : List Section,
      rows.foldl stepFold (secs, false) = (rows.foldl stepNofold secs, false) := by
  induction rows with
  | nil => intro secs; rfl
  | cons r rs ih =>
      intro secs
      rw [List.foldl_cons, List.foldl_cons,
        stepFold_eq_stepNofold secs r (h r (by simp)),
        ih (fun raw hm => h raw (by simp [hm]))]

/-- **C5 (amended).** For every input row sequence in which no trimmed
heading matches the HIDDEN fold-start sentinel and every `SECTION:` sentinel
row carries empty trimmed content and meta, the fold-capable and fold-free
builders produce identical section lists.  (The un-amended claim fails: on a
`SECTION:` row with non-empty content the fold-free builder appends a pair
row and the fold-capable one does not — see the counterexample.) -/
theorem c5_variants_agree (rows : List (List Str))
    (h : ∀ raw ∈ rows, agreeableRow raw) :
    build_sections rows = build_sections_nofold rows := by
  unfold build_sections build_sections_nofold
  rw [foldl_stepFold_eq rows h ([] : List Section)]

/-- Witness for C5 (amended) at the C4 example rows. -/
theorem c5_variants_agree_witness :
    (∀ raw ∈ [[str "SECTION: Work", str "", str ""],
        [str "Acme Inc", str "Engineer", str "2020-2022"],
        [str "", str "Built X", str ""]], agreeableRow raw) ∧
    build_sections [[str "SECTION: Work", str "", str ""],
        [str "Acme Inc", str "Engineer", str "2020-2022"],
        [str "", str "Built X", str ""]] =
      build_sections_nofold [[str "SECTION: Work", str "", str ""],
        [str "Acme Inc", str "Engineer", str "2020-2022"],
        [str "", str "Built X", str ""]] :=
  ⟨by decide, c5_variants_agree _ (by decide)⟩

/-- **C5 (counterexample).** A `SECTION:` sentinel row with non-empty
content but no HIDDEN heading anywhere: the fold-free builder appends a pair
row to the new section, the fold-capable builder leaves it empty, so the two
section lists differ although no heading matches the fold-start sentinel. -/
theorem c5_counterexample :
    (∀ raw ∈ [[str "SECTION: Work", str "Engineer", str ""]],
      matchHidden (rowHeading raw) = none) ∧
    build_sections [[str "SECTION: Work", str "Engineer", str ""]] =
      [{ label := str "Work", id := str "work", rows := [] }] ∧
    build_sections_nofold [[str "SECTION: Work", str "Engineer", str ""]] =
      [{ label := str "Work", id := str "work",
         rows := [.pair (str "Engineer") (str "")] }] ∧
    build_sections [[str "SECTION: Work", str "Engineer", str ""]] ≠
      build_sections_nofold [[str "SECTION: Work", str "Engineer", str ""]] := by
  refine ⟨by decide, by decide, by decide, by decide⟩

/-- **C6.** The renderer's per-section class string carries the two-column
marker `entry--two` if and only if no `Pair` row of the section has a
non-empty `meta`.  The decision function reads nothing but the section's own
rows (so it is per-section, not carried across sections), and `pairHasMeta`
is `false` on `Description` and `FoldBlock` rows, so fold-item metas and
descriptions never affect it. -/
theorem c6_two_column_iff (sec : Section) :
    sectionEntryClasses sec = str "entry entry--two" ↔
      ∀ main meta, Row.pair main meta ∈ sec.rows → meta = [] := by
  unfold sectionEntryClasses
  by_cases hany : sec.rows.any pairHasMeta = true
  · rw [if_neg (by simp [hany])]
    simp only [List.append_nil]
    constructor
    · intro heq
      exact absurd heq (by decide)
    · intro hall
      exfalso
      obtain ⟨r, hr, hpr⟩ := List.any_eq_true.mp hany
      cases r with
      | pair main meta =>
          have hm := hall main meta hr
          subst hm
          simp [pairHasMeta] at hpr
      | desc h => simp [pairHasMeta] at hpr
      | hidden s o i => simp [pairHasMeta] at hpr
  · have hf : sec.rows.any pairHasMeta = false := by
      cases h2 : sec.rows.any pairHasMeta
      · rfl
      · exact absurd h2 hany
    rw [if_pos hf]
    constructor
    · intro _ main meta hmem
      have hx := List.any_eq_false.mp hf _ hmem
      simpa [pairHasMeta, List.isEmpty_iff] using hx
    · intro _
      decide

/-- A `findIdx?` that can find nothing returns `none`, whatever the start
index. -/
theorem findIdx?_eq_none_of_all (p : Char → Bool) (l : Str)
    (h : ∀ c ∈ l, p c = false) : ∀ i, l.findIdx? p i = none := by
  induction l with
  | nil => intro i; rfl
  | cons c cs ih =>
      intro i
      rw [List.findIdx?, h c (by simp)]
      simpa using ih (fun c hc => h c (by simp [hc])) (i + 1)

/-- Carriage-return-free text is untouched by line-ending normalisation. -/
theorem normalizeNewlines_of_no_cr (t : Str) (h : '\r' ∉ t) :
    normalizeNewlines t = t := by
  induction t with
  | nil => rfl
  | cons c rest ih =>
      have hc : c ≠ '\r' := fun e => h (by simp [e])
      have hrest : '\r' ∉ rest := fun e => h (by simp [e])
      rw [normalizeNewlines.eq_def]
      split <;> simp_all

/-- With no blank-line boundary, `re.split(r"\n\s*\n", ·)` returns the whole
text as the single block. -/
theorem splitBlank_of_no_boundary (s : Str) (h : hasBlankBoundary s = false) :
    ∀ acc, splitBlank acc s = [acc.reverse ++ s] := by
  induction s with
  | nil => intro acc; simp [splitBlank]
  | cons c rest ih =>
      intro acc
      rw [hasBlankBoundary] at h
      simp only [Bool.or_eq_false_iff, Bool.and_eq_false_iff] at h
      have hrest : hasBlankBoundary rest = false := h.2
      by_cases hc : c = '\n'
      · subst hc
        have hrun : '\n' ∉ rest.takeWhile pyIsSpace := by
          rcases h.1 with h1 | h1
          · simp at h1
          · simpa using h1
        have hnone : (rest.takeWhile pyIsSpace).reverse.findIdx?
            (fun x => x = '\n') = none := by
          apply findIdx?_eq_none_of_all
          intro x hx
          have hmem : x ∈ rest.takeWhile pyIsSpace := List.mem_reverse.mp hx
          simp only [decide_eq_false_iff_not]
          exact fun e => hrun (e ▸ hmem)

        rw [splitBlank]
        simp only [if_pos rfl, hnone]
        rw [ih hrest ('\n' :: acc)]
        simp
      · rw [splitBlank, if_neg hc, ih hrest (c :: acc)]
        simp

/-- `"\n".join` of a single block is that block. -/
theorem intercalate_singleton (sep x : Str) : List.intercalate sep [x] = x := by
  simp [List.intercalate, List.intersperse]

/-- **C7 (amended).** For every non-empty text that is its own trim (no
leading or trailing whitespace), contains no carriage return, no markup tag
(per the detector) and no blank-line boundary, the Paragraph Formatter
returns a single paragraph container whose inner text is the input with
every line break replaced by `<br>`.  (The un-amended claim fails on input
with leading or trailing whitespace, which `auto_html` trims away — see the
counterexample.) -/
theorem c7_single_paragraph (t : Str) (h0 : t ≠ []) (h1 : pyStrip t = t)
    (h2 : '\r' ∉ t) (h3 : hasTag t = false) (h4 : hasBlankBoundary t = false) :
    auto_html t = str "<p>" ++ nlToBrAll t ++ str "</p>" := by
  unfold auto_html
  rw [if_neg (by rw [h1]; exact h0)]
  simp only [normalizeNewlines_of_no_cr t h2, h3, h1, if_true]
  rw [splitBlank_of_no_boundary t h4 []]
  simp only [List.reverse_nil, List.nil_append, List.map_cons, List.map_nil, h1]
  rw [intercalate_singleton]

/-- Witness for C7 (amended) at the two-line text `a(newline)b`. -/
theorem c7_single_paragraph_witness :
    (str "a\nb" ≠ [] ∧ pyStrip (str "a\nb") = str "a\nb" ∧
     '\r' ∉ str "a\nb" ∧ hasTag (str "a\nb") = false ∧
     hasBlankBoundary (str "a\nb") = false) ∧
    auto_html (str "a\nb") = str "<p>a<br>b</p>" := by
  refine ⟨⟨by decide, by decide, by decide, by decide, by decide⟩, ?_⟩
  rw [c7_single_paragraph (str "a\nb") (by decide) (by decide) (by decide)
    (by decide) (by decide)]
  decide

/-- **C7 (counterexample).** The input `"a "` (trailing blank, no tag, no
blank-line boundary, no line break at all) is returned as `<p>a</p>`: the
formatter trims the block, so the inner text is `a`, not the input `a `;
the claim's promised output `<p>a </p>` is not produced. -/
theorem c7_counterexample :
    hasTag (str "a ") = false ∧ hasBlankBoundary (str "a ") = false ∧
    auto_html (str "a ") = str "<p>a</p>" ∧
    auto_html (str "a ") ≠ str "<p>a </p>" := by
  have key : auto_html (str "a ") = str "<p>a</p>" := by
    unfold auto_html
    rw [if_neg (by decide)]
    have e1 : normalizeNewlines (str "a ") = str "a " := by decide
    simp only [e1]
    have e2 : hasTag (str "a ") = false := by decide
    simp only [e2]
    have e3 : pyStrip (str "a ") = str "a" := by decide
    simp only [e3]
    rw [splitBlank_of_no_boundary (str "a") (by decide) []]
    simp only [List.reverse_nil, List.nil_append, List.map_cons, List.map_nil]
    rw [intercalate_singleton]
    decide
  exact ⟨by decide, by decide, key, by rw [key]; decide⟩

/-- **C9.** The core is total: the builder and renderer are total functions
(termination was established when Lean accepted the definitions, fold items
and the three row variants are enforced by the `Row`/`Section` types), and
in particular empty input yields the empty section list while rendering it
yields the fixed document shell with an empty body. -/
theorem c9_total_and_empty (title : Str) :
    build_sections [] = [] ∧
    render_html title [] =
      htmlHead title ++
        (str "      <h1 class=\"title\">" ++ title ++ str "</h1>\n") ++
        HTML_TAIL ∧
    (∀ rows : List (List Str), ∃ secs : List Section, build_sections rows = secs) ∧
    (∀ (t : Str) (secs : List Section), ∃ out : Str, render_html t secs = out) := by
  refine ⟨rfl, ?_, fun rows => ⟨_, rfl⟩, fun t secs => ⟨_, rfl⟩⟩
  unfold render_html
  simp

end Tsv2Resume
